import Mathlib

/-!
# Verification of the Roboflow dataset-download script

A shallow embedding of `download_dataset.py`, a one-shot utility that
resolves configuration from the environment, lists remote dataset
versions, auto-generates a version when none exists, selects the
requested (or latest) version, downloads it with a single retry at the
latest version, and prints a verification summary of the downloaded
tree.  External effects (environment, remote API, filesystem) are
modelled as oracles; the script's own control flow and pure logic are
translated directly from the source.
-/

/-- A Python value that may appear as the `version` field of a version
entry: an `int`, a `str`, `None`, or some other non-coercible object. -/
inductive PyVal where
  | int (n : Int)
  | str (s : String)
  | none
  | other
deriving DecidableEq, Repr

/-- One element of the list returned by `project.versions()`:
either an attribute-style object (its `version` attribute is read by
`getattr(item, "version", None)`; a missing attribute reads as `None`),
or a mapping-style `dict` (read by `item.get("version")`, which is
`None` when the key is absent). -/
inductive Entry where
  | obj (version : PyVal)
  | dict (version : Option PyVal)
deriving DecidableEq, Repr

/-- Digit run of a Python integer literal, allowing single underscores
between digits (as `int("1_0")` does).  `acc` holds the digits read so
far. -/
def pyDigitsAux : Nat → List Char → Option Nat
  | acc, [] => some acc
  | acc, '_' :: c :: cs =>
      if c.isDigit then pyDigitsAux (acc * 10 + (c.toNat - 48)) cs else Option.none
  | acc, c :: cs =>
      if c.isDigit then pyDigitsAux (acc * 10 + (c.toNat - 48)) cs else Option.none

/-- Parse a nonempty digit run (first character must be a digit). -/
def pyParseNat : List Char → Option Nat
  | [] => Option.none
  | c :: cs => if c.isDigit then pyDigitsAux (c.toNat - 48) cs else Option.none

/-- The whitespace characters `int(s)` strips from both ends. -/
def pyIsSpace (c : Char) : Bool :=
  c = ' ' || c = '\t' || c = '\n' || c = '\r' || c = '\x0b' || c = '\x0c'

/-- Python `int(s)` on a string: strip surrounding whitespace, accept an
optional sign followed by digits; `Option.none` models a raised
`ValueError`. -/
def pyStrToInt (s : String) : Option Int :=
  match ((s.data.dropWhile pyIsSpace).reverse.dropWhile pyIsSpace).reverse with
  | '+' :: rest => (pyParseNat rest).map Int.ofNat
  | '-' :: rest => (pyParseNat rest).map (fun n => -(n : Int))
  | cs => (pyParseNat cs).map Int.ofNat

/-- Python `int(value)` on a dynamically typed value: identity on ints,
string parsing on strings, and a raised `TypeError` (modelled as
`Option.none`) on `None` and other objects. -/
def pyInt : PyVal → Option Int
  | .int n => some n
  | .str s => pyStrToInt s
  | .none => Option.none
  | .other => Option.none

/-- The raw value the loop body reads from an entry:
`value = getattr(item, "version", None)`, then, when that gave `None`
and the item is a dict, `value = item.get("version")`. -/
def entryRaw : Entry → PyVal
  | .obj v => v
  | .dict (some v) => v
  | .dict Option.none => PyVal.none

/-- The integer an entry contributes, if `int(value)` succeeds. -/
def entryCoerce (e : Entry) : Option Int :=
  pyInt (entryRaw e)

/-- `_extract_version_numbers`: iterate over `version_objects or []`,
collect every `int(value)` that does not raise, and return
`sorted(set(version_numbers))`.  `Option.none` models a `None` result
from the remote listing. -/
def _extract_version_numbers (version_objects : Option (List Entry)) : List Int :=
  let items := version_objects.getD []
  let version_numbers := items.filterMap entryCoerce
  List.insertionSort (· ≤ ·) version_numbers.dedup

/-- Resolved configuration, mirroring the module-level constants. -/
structure Config where
  workspace : String
  project : String
  version : Int
  format : String
  dest : String
  autoGenerate : Bool
  overwrite : Bool
deriving DecidableEq, Repr

/-- `os.getenv(name, default)`. -/
def getenvD (env : String → Option String) (name default : String) : String :=
  (env name).getD default

/-- Python truthiness of `os.getenv(...)`: `None` and the empty string
are falsy, every other string is truthy. -/
def pyTruthy : Option String → Bool
  | Option.none => false
  | some s => !(s == "")

/-- Python `str.lower()`, mapping each character to lower case. -/
def pyLower (s : String) : String :=
  ⟨s.data.map Char.toLower⟩

/-- A boolean toggle: `os.getenv(name, "1").lower() not in {"0", "false", "no"}`. -/
def parseToggle (s : String) : Bool :=
  !(["0", "false", "no"].contains (pyLower s))

/-- Resolve the module-level configuration constants from the
environment; `Option.none` models the uncaught `ValueError` raised by
`int(os.getenv("ROBOFLOW_VERSION", "1"))` on a malformed value. -/
def resolveConfiguration (env : String → Option String) : Option Config :=
  match pyStrToInt (getenvD env "ROBOFLOW_VERSION" "1") with
  | Option.none => Option.none
  | some v =>
      some {
        workspace := getenvD env "ROBOFLOW_WORKSPACE" "cvtesting-3rnup"
        project := getenvD env "ROBOFLOW_PROJECT" "segmentation-ui-oh51c"
        version := v
        format := getenvD env "ROBOFLOW_FORMAT" "yolov8"
        dest := getenvD env "ROBOFLOW_DEST" "./dataset"
        autoGenerate := parseToggle (getenvD env "ROBOFLOW_AUTO_GENERATE_VERSION" "1")
        overwrite := parseToggle (getenvD env "ROBOFLOW_OVERWRITE" "1")
      }

/-- The empty-set handling of `available_versions`: non-empty sets pass
through; an empty set triggers auto-generation when enabled (success
yields the singleton `[generated]`, failure exits with status 1) and a
status-1 exit otherwise.  The second component records whether
`project.generate_version` was called. -/
def ensureVersionExists (gen : Except String Int) (available_versions : List Int)
    (autoGenerate : Bool) : Except Nat (List Int) × Bool :=
  if !available_versions.isEmpty then (.ok available_versions, false)
  else if autoGenerate then
    match gen with
    | .ok generated => (.ok [generated], true)
    | .error _ => (.error 1, true)
  else (.error 1, false)

/-- `target_version` selection: keep the requested version when it is
among `available_versions`, otherwise fall back to
`available_versions[-1]` (the last element; `0` is an unreachable
placeholder for the empty list, on which Python would raise). -/
def selectVersion (requested : Int) (available_versions : List Int) : Int :=
  if requested ∈ available_versions then requested
  else available_versions.getLastD 0

/-- The arguments of one `project.version(v).download(fmt, location=dest,
overwrite=ow)` call. -/
structure DlCall where
  version : Int
  format : String
  location : String
  overwrite : Bool
deriving DecidableEq, Repr

/-- The object returned by a successful download; only `.location` is
consumed. -/
structure DlResult where
  location : String
deriving DecidableEq, Repr

/-- The `try/except` download block: attempt `target_version`; on an
exception, retry once with `available_versions[-1]` when the failed
version was not already the latest, else re-raise.  Returns the final
outcome together with the list of download calls issued, in order. -/
def downloadWithRetry (dl : DlCall → Except String DlResult) (target_version : Int)
    (available_versions : List Int) (fmt dest : String) (ow : Bool) :
    Except String DlResult × List DlCall :=
  let first : DlCall := ⟨target_version, fmt, dest, ow⟩
  match dl first with
  | .ok d => (.ok d, [first])
  | .error e =>
      if target_version ≠ available_versions.getLastD 0 then
        let second : DlCall := ⟨available_versions.getLastD 0, fmt, dest, ow⟩
        (dl second, [first, second])
      else
        (.error e, [first])

/-- Filesystem oracle for the verification step: `Path.exists` on a
path given as components, and `Path.glob` on a directory with a
pattern. -/
structure FS where
  pathExists : List String → Bool
  glob : List String → String → List String

/-- The fields of the one-line verification summary. -/
structure Summary where
  trainImages : Nat
  trainLabels : Nat
  validSplit : Bool
  testSplit : Bool
deriving DecidableEq, Repr

/-- The post-download verification block: when `Path(location)` exists,
count `train/images/*` and `train/labels/*.txt` entries and check the
`valid` and `test` subdirectories; otherwise do nothing (no summary,
nothing raised). -/
def verifySummary (fs : FS) (location : String) : Option Summary :=
  if fs.pathExists [location] then
    some {
      trainImages := (fs.glob [location, "train", "images"] "*").length
      trainLabels := (fs.glob [location, "train", "labels"] "*.txt").length
      validSplit := fs.pathExists [location, "valid"]
      testSplit := fs.pathExists [location, "test"]
    }
  else Option.none

/-- Oracle for the remote API: the `project.versions()` listing, the
outcome of `int(project.generate_version(...))`, and the outcome of
each download call. -/
structure Remote where
  versions : Option (List Entry)
  generate : Except String Int
  download : DlCall → Except String DlResult

/-- A remote interaction issued by the script, in program order. -/
inductive Call where
  | connect (workspace project : String)
  | listVersions
  | generateVersion
  | download (c : DlCall)
deriving DecidableEq, Repr

/-- How a run of the script ends: a successful run with the dataset
location and the optional verification summary, a `sys.exit(code)`, or
an uncaught exception (which also terminates the process with a
non-zero status). -/
inductive Outcome where
  | success (location : String) (summary : Option Summary)
  | exit (code : Nat)
  | raised (e : String)
deriving DecidableEq, Repr

/-- Whether the outcome is a non-zero process exit. -/
def Outcome.isNonZeroExit : Outcome → Bool
  | .exit code => code != 0
  | .raised _ => true
  | .success _ _ => false

/-- The whole script, top to bottom: API-key check, configuration
resolution, remote handle acquisition and version listing, empty-set
handling, version selection, download with retry, verification.
Returns the outcome together with the remote calls issued, in order. -/
def runFetcher (env : String → Option String) (remote : Remote) (fs : FS) :
    Outcome × List Call :=
  if !pyTruthy (env "ROBOFLOW_API_KEY") then (.exit 1, [])
  else
    match resolveConfiguration env with
    | Option.none => (.raised "ValueError", [])
    | some cfg =>
        let preCalls := [Call.connect cfg.workspace cfg.project, Call.listVersions]
        let available := _extract_version_numbers remote.versions
        match ensureVersionExists remote.generate available cfg.autoGenerate with
        | (.error code, genCalled) =>
            (.exit code, preCalls ++ if genCalled then [Call.generateVersion] else [])
        | (.ok vs, genCalled) =>
            let calls1 := preCalls ++ (if genCalled then [Call.generateVersion] else [])
            let tv := selectVersion cfg.version vs
            let r := downloadWithRetry remote.download tv vs cfg.format cfg.dest cfg.overwrite
            match r.1 with
            | .error e => (.raised e, calls1 ++ r.2.map Call.download)
            | .ok d =>
                (.success d.location (verifySummary fs d.location),
                 calls1 ++ r.2.map Call.download)

/-! ## Helper lemmas -/

/-- The last element (with default) of a nonempty list is a member. -/
theorem getLastD_mem (V : List Int) (d : Int) (h : V ≠ []) : V.getLastD d ∈ V := by
  rw [List.getLastD_eq_getLast?, List.getLast?_eq_getLast V h]
  exact List.getLast_mem h

/-- In a list sorted ascending, every element is at most the last one. -/
theorem le_getLastD_of_sorted :
    ∀ (V : List Int) (d : Int), V.Sorted (· ≤ ·) → ∀ x ∈ V, x ≤ V.getLastD d
  | [], _, _, x, hx => absurd hx (List.not_mem_nil x)
  | a :: l, d, hs, x, hx => by
      rw [List.getLastD_cons]
      rcases List.mem_cons.mp hx with rfl | hxl
      · rcases eq_or_ne l [] with rfl | hl
        · simp [List.getLastD]
        · exact (List.sorted_cons.mp hs).1 _ (getLastD_mem l x hl)
      · exact le_getLastD_of_sorted l a (List.sorted_cons.mp hs).2 x hxl

/-! ## Claim theorems -/

/-- C1: for every version set `V` and requested version `r`, version
selection returns `r` when `r ∈ V`, and otherwise returns the maximum
element of the (nonempty, ascending) set `V`. -/
theorem selectVersion_spec (r : Int) (V : List Int) (hne : V ≠ [])
    (hs : V.Sorted (· ≤ ·)) :
    (r ∈ V → selectVersion r V = r) ∧
    (r ∉ V → selectVersion r V ∈ V ∧ ∀ x ∈ V, x ≤ selectVersion r V) := by
  constructor
  · intro h
    simp [selectVersion, h]
  · intro h
    simp only [selectVersion, if_neg h]
    exact ⟨getLastD_mem V 0 hne, le_getLastD_of_sorted V 0 hs⟩

/-- Witness for C1 at `r = 2`, `V = [1, 3]`. -/
theorem selectVersion_spec_witness :
    ((2 : Int) ∈ ([1, 3] : List Int) → selectVersion 2 [1, 3] = 2) ∧
    ((2 : Int) ∉ ([1, 3] : List Int) →
      selectVersion 2 [1, 3] ∈ ([1, 3] : List Int) ∧
      ∀ x ∈ ([1, 3] : List Int), x ≤ selectVersion 2 [1, 3]) :=
  selectVersion_spec 2 [1, 3] (by decide) (by decide)

/-- C2: version-entry parsing returns exactly the integers successfully
coerced from either entry shape, skipping uncoercible entries, with the
result strictly ascending (hence deduplicated and sorted). -/
theorem extract_version_numbers_spec (entries : List Entry) :
    (_extract_version_numbers (some entries)).Sorted (· < ·) ∧
    ∀ v : Int, v ∈ _extract_version_numbers (some entries) ↔
      ∃ e ∈ entries, entryCoerce e = some v := by
  constructor
  · have hs : (_extract_version_numbers (some entries)).Sorted (· ≤ ·) :=
      List.sorted_insertionSort (· ≤ ·) (entries.filterMap entryCoerce).dedup
    have hperm := List.perm_insertionSort (α := Int) (· ≤ ·) (entries.filterMap entryCoerce).dedup
    have hnd : (_extract_version_numbers (some entries)).Nodup :=
      hperm.symm.nodup (List.nodup_dedup _)
    exact hs.lt_of_le hnd
  · intro v
    simp [_extract_version_numbers, List.mem_dedup, List.mem_filterMap]

/-- Witness for C2 at the spec's example input
`[{"version": "3"}, obj(version=1), {"version": "bad"}, obj(version=1)]`. -/
theorem extract_version_numbers_spec_witness :
    (_extract_version_numbers (some [Entry.dict (some (.str "3")), Entry.obj (.int 1),
        Entry.dict (some (.str "bad")), Entry.obj (.int 1)])).Sorted (· < ·) ∧
    ∀ v : Int, v ∈ _extract_version_numbers (some [Entry.dict (some (.str "3")),
        Entry.obj (.int 1), Entry.dict (some (.str "bad")), Entry.obj (.int 1)]) ↔
      ∃ e ∈ [Entry.dict (some (.str "3")), Entry.obj (.int 1),
        Entry.dict (some (.str "bad")), Entry.obj (.int 1)], entryCoerce e = some v :=
  extract_version_numbers_spec [Entry.dict (some (.str "3")), Entry.obj (.int 1),
    Entry.dict (some (.str "bad")), Entry.obj (.int 1)]

/-- C10: a `None` version listing yields the empty version set without
raising, exactly as an empty list does. -/
theorem extract_version_numbers_none :
    _extract_version_numbers Option.none = [] ∧
    _extract_version_numbers Option.none = _extract_version_numbers (some []) :=
  ⟨rfl, rfl⟩

/-- C3: on a download failure at version `v` with `V` the ascending,
nonempty set of available versions, `V.getLastD 0` is `max V`; when
`v ≠ max V`, exactly one retry is issued, targeting `max V` with the
same format, destination and overwrite flag, and its outcome is final;
when `v = max V`, no retry is issued and the original error propagates.
In every case at most two download calls are made. -/
theorem downloadWithRetry_spec (dl : DlCall → Except String DlResult) (v : Int)
    (V : List Int) (fmt dest : String) (ow : Bool) (e : String)
    (hne : V ≠ []) (hs : V.Sorted (· ≤ ·))
    (hfail : dl ⟨v, fmt, dest, ow⟩ = .error e) :
    (V.getLastD 0 ∈ V ∧ ∀ x ∈ V, x ≤ V.getLastD 0) ∧
    (v ≠ V.getLastD 0 →
      downloadWithRetry dl v V fmt dest ow =
        (dl ⟨V.getLastD 0, fmt, dest, ow⟩,
         [⟨v, fmt, dest, ow⟩, ⟨V.getLastD 0, fmt, dest, ow⟩])) ∧
    (v = V.getLastD 0 →
      downloadWithRetry dl v V fmt dest ow = (.error e, [⟨v, fmt, dest, ow⟩])) ∧
    (downloadWithRetry dl v V fmt dest ow).2.length ≤ 2 := by
  refine ⟨⟨getLastD_mem V 0 hne, le_getLastD_of_sorted V 0 hs⟩, ?_, ?_, ?_⟩
  · intro h
    simp only [downloadWithRetry]
    rw [hfail]
    exact if_pos h
  · intro h
    simp only [downloadWithRetry]
    rw [hfail]
    exact if_neg (by simpa using h)
  · simp only [downloadWithRetry]
    cases hdl : dl ⟨v, fmt, dest, ow⟩ with
    | ok d => simp
    | error e2 =>
        split
        · simp
        · split <;> simp

/-- The download oracle used by the witnesses: version 1 fails, every
other version succeeds. -/
def dlW : DlCall → Except String DlResult :=
  fun c => if c.version = 1 then .error "boom" else .ok ⟨"./dataset"⟩

/-- Witness for C3: failure at `v = 1` with `V = [1, 2]` retries once at
version 2 and succeeds. -/
theorem downloadWithRetry_spec_witness :
    downloadWithRetry dlW 1 [1, 2] "yolov8" "./dataset" true =
      (Except.ok ⟨"./dataset"⟩,
       [⟨1, "yolov8", "./dataset", true⟩, ⟨2, "yolov8", "./dataset", true⟩]) := by
  have h := (downloadWithRetry_spec dlW 1 [1, 2] "yolov8" "./dataset" true "boom"
      (by decide) (by decide) rfl).2.1 (by decide)
  simpa [dlW] using h

/-- C4: with an empty version set, auto-generation enabled requests one
new version and returns the singleton set on success or exits with
status 1 on failure; auto-generation disabled exits with status 1
without calling generate; a non-empty set passes through unchanged. -/
theorem ensureVersionExists_spec (gen : Except String Int) (V : List Int) :
    (V ≠ [] → ∀ ag : Bool, ensureVersionExists gen V ag = (.ok V, false)) ∧
    (V = [] →
      (∀ n : Int, gen = .ok n → ensureVersionExists gen V true = (.ok [n], true)) ∧
      (∀ e : String, gen = .error e →
        ensureVersionExists gen V true = (.error 1, true) ∧ (1 : Nat) ≠ 0) ∧
      (ensureVersionExists gen V false = (.error 1, false) ∧ (1 : Nat) ≠ 0)) := by
  refine ⟨fun h ag => ?_, fun h => ⟨fun n hn => ?_, fun e he => ?_, ?_⟩⟩
  · simp [ensureVersionExists, h]
  · subst h; simp [ensureVersionExists, hn]
  · subst h; simp [ensureVersionExists, he]
  · subst h; simp [ensureVersionExists]

/-- Witness for C4: empty set, auto-generation enabled, generation
succeeds with version 5. -/
theorem ensureVersionExists_spec_witness :
    ensureVersionExists (Except.ok 5) [] true = (.ok [5], true) :=
  ((ensureVersionExists_spec (Except.ok 5) []).2 rfl).1 5 rfl

/-- C5: with a nonempty version set, the selected version is a member of
the set, and every download call issued (the first attempt and any
retry) targets a member of the set. -/
theorem download_version_in_versionSet (dl : DlCall → Except String DlResult)
    (r : Int) (V : List Int) (fmt dest : String) (ow : Bool) (hne : V ≠ []) :
    selectVersion r V ∈ V ∧
    ∀ c ∈ (downloadWithRetry dl (selectVersion r V) V fmt dest ow).2,
      c.version ∈ V := by
  have hsel : selectVersion r V ∈ V := by
    by_cases h : r ∈ V
    · simp [selectVersion, h]
    · simp only [selectVersion, if_neg h]
      exact getLastD_mem V 0 hne
  refine ⟨hsel, fun c hc => ?_⟩
  simp only [downloadWithRetry] at hc
  cases hdl : dl ⟨selectVersion r V, fmt, dest, ow⟩ with
  | ok d =>
      simp only [hdl, List.mem_singleton] at hc
      subst hc
      exact hsel
  | error e =>
      simp only [hdl] at hc
      by_cases h2 : selectVersion r V ≠ V.getLastD 0
      · rw [if_pos h2] at hc
        rcases List.mem_pair.mp hc with rfl | rfl
        · exact hsel
        · exact getLastD_mem V 0 hne
      · rw [if_neg h2] at hc
        simp only [List.mem_singleton] at hc
        subst hc
        exact hsel

/-- Witness for C5 at `r = 5`, `V = [1, 2]` with the witness download
oracle. -/
theorem download_version_in_versionSet_witness :
    selectVersion 5 [1, 2] ∈ ([1, 2] : List Int) ∧
    ∀ c ∈ (downloadWithRetry dlW (selectVersion 5 [1, 2]) [1, 2]
        "yolov8" "./dataset" true).2,
      c.version ∈ ([1, 2] : List Int) :=
  download_version_in_versionSet dlW 5 [1, 2] "yolov8" "./dataset" true (by decide)

/-- C6: when the API-key variable is absent or empty, the script exits
with status 1 (non-zero) having issued no remote call. -/
theorem missing_api_key_exits (env : String → Option String) (remote : Remote)
    (fs : FS)
    (h : env "ROBOFLOW_API_KEY" = Option.none ∨ env "ROBOFLOW_API_KEY" = some "") :
    runFetcher env remote fs = (.exit 1, []) ∧
    (runFetcher env remote fs).1.isNonZeroExit = true := by
  have hk : pyTruthy (env "ROBOFLOW_API_KEY") = false := by
    rcases h with h | h <;> simp [pyTruthy, h]
  constructor <;> simp [runFetcher, hk, Outcome.isNonZeroExit]

/-- Environment oracle for the C6 witness: every variable is unset. -/
def envW0 : String → Option String := fun _ => Option.none

/-- Remote oracle for the witnesses: no listing, failing generation,
failing downloads. -/
def remoteW : Remote := ⟨Option.none, .error "offline", fun _ => .error "offline"⟩

/-- Filesystem oracle for the witnesses: nothing exists. -/
def fsW : FS := ⟨fun _ => false, fun _ _ => []⟩

/-- Witness for C6: an empty environment exits with status 1 and an
empty call trace. -/
theorem missing_api_key_exits_witness :
    runFetcher envW0 remoteW fsW = (.exit 1, []) ∧
    (runFetcher envW0 remoteW fsW).1.isNonZeroExit = true :=
  missing_api_key_exits envW0 remoteW fsW (Or.inl rfl)

/-- C7: when the API key is present but the requested-version variable
does not parse as an integer, the script terminates with the raised
`ValueError` — a non-zero exit — before issuing any remote call, rather
than silently defaulting. -/
theorem malformed_version_fails_fast (env : String → Option String) (remote : Remote)
    (fs : FS) (hkey : pyTruthy (env "ROBOFLOW_API_KEY") = true)
    (hbad : pyStrToInt (getenvD env "ROBOFLOW_VERSION" "1") = Option.none) :
    (runFetcher env remote fs).1 = .raised "ValueError" ∧
    (runFetcher env remote fs).1.isNonZeroExit = true ∧
    (runFetcher env remote fs).2 = [] := by
  have hcfg : resolveConfiguration env = Option.none := by
    simp only [resolveConfiguration, hbad]
  refine ⟨?_, ?_, ?_⟩ <;> simp [runFetcher, hkey, hcfg, Outcome.isNonZeroExit]

/-- Environment oracle for the C7 witness: a key is set and the
requested version is the non-numeric string `"latest"`. -/
def envW1 : String → Option String := fun name =>
  if name = "ROBOFLOW_API_KEY" then some "k3y"
  else if name = "ROBOFLOW_VERSION" then some "latest"
  else Option.none

/-- Witness for C7 at `ROBOFLOW_VERSION = "latest"`. -/
theorem malformed_version_fails_fast_witness :
    (runFetcher envW1 remoteW fsW).1 = .raised "ValueError" ∧
    (runFetcher envW1 remoteW fsW).1.isNonZeroExit = true ∧
    (runFetcher envW1 remoteW fsW).2 = [] :=
  malformed_version_fails_fast envW1 remoteW fsW rfl (by decide)

/-- Counterexample for C8: the value `"FALSE"` is interpreted as false
although it is not one of the literal tokens `"0"`, `"false"`, `"no"`
(the code lowercases the value before the membership test). -/
theorem parseToggle_counterexample :
    parseToggle "FALSE" = false ∧
    (["0", "false", "no"].contains "FALSE") = false := by
  constructor
  · decide
  · decide

/-- C8 (amended): a toggle value is interpreted as false exactly when
its lowercased form is one of the tokens `"0"`, `"false"`, `"no"`, and
as true for any other value. -/
theorem parseToggle_amended (s : String) :
    parseToggle s = false ↔ pyLower s ∈ ["0", "false", "no"] := by
  simp only [parseToggle, List.contains, Bool.not_eq_false']
  exact List.elem_iff

/-- Witness for C8 (amended) at the value `"yes"`. -/
theorem parseToggle_amended_witness :
    parseToggle "yes" = false ↔ pyLower "yes" ∈ ["0", "false", "no"] :=
  parseToggle_amended "yes"

/-- C9: when the resolved location exists on disk, verification reports
the entry count of `<location>/train/images/*`, the entry count of
`<location>/train/labels/*.txt`, and the existence of
`<location>/valid` and `<location>/test`; when the location does not
exist, it produces no summary (and, being a total function, raises
nothing). -/
theorem verifySummary_spec (fs : FS) (location : String) :
    (fs.pathExists [location] = true →
      verifySummary fs location = some {
        trainImages := (fs.glob [location, "train", "images"] "*").length
        trainLabels := (fs.glob [location, "train", "labels"] "*.txt").length
        validSplit := fs.pathExists [location, "valid"]
        testSplit := fs.pathExists [location, "test"] }) ∧
    (fs.pathExists [location] = false → verifySummary fs location = Option.none) := by
  constructor <;> intro h <;> simp [verifySummary, h]

/-- Filesystem oracle for the C9 witness: the dataset root exists with
two train images, one label file and a valid split but no test split. -/
def fsW2 : FS :=
  ⟨fun p => p = ["./dataset"] || p = ["./dataset", "valid"],
   fun p pat =>
     if p = ["./dataset", "train", "images"] && pat = "*" then ["a.jpg", "b.jpg"]
     else if p = ["./dataset", "train", "labels"] && pat = "*.txt" then ["a.txt"]
     else []⟩

/-- Witness for C9: both branches at concrete filesystems (existing
root with counts 2/1, and a missing root). -/
theorem verifySummary_spec_witness :
    verifySummary fsW2 "./dataset" =
      some { trainImages := 2, trainLabels := 1, validSplit := true, testSplit := false } ∧
    verifySummary fsW "./dataset" = Option.none := by
  constructor
  · have h := (verifySummary_spec fsW2 "./dataset").1 (by decide)
    rw [h]
    decide
  · exact (verifySummary_spec fsW "./dataset").2 rfl
